import Mathlib

/-
Verification of the message-generator derivation tool
(tooling/message-generators/src/main.rs) of the bbs-signature repository.

The tool composes externally supplied cryptographic primitives (SHAKE-256,
expand-message, BLS12-381 hash-to-curve, group arithmetic) through a
ciphersuite capability interface.  Following the repository's own scoping
(the primitives are assumed to be supplied externally and correct), the
primitives are embedded as an injected capability record `Externs`, and the
derivation functions of main.rs are translated over it.  Byte strings are
lists of naturals.
-/

namespace BbsGen

/-- Byte strings, as in the Rust `&[u8]` / `Vec<u8>`. -/
abbrev Bytes := List Nat

/-- ASCII bytes of a string constant, as in a Rust `b"..."` literal. -/
def strBytes (s : String) : Bytes := s.toList.map Char.toNat

/-- The constant `DST` of main.rs line 14:
`b"BBS_BLS12381G1_XOF:SHAKE-256_SSWU_RO_"`. -/
def DST : Bytes := strBytes "BBS_BLS12381G1_XOF:SHAKE-256_SSWU_RO_"

/-- The externally supplied cryptographic primitives used by main.rs, as an
injected capability record (the repository composes them and assumes a
correct implementation is supplied externally):
* `shakeByte seed i` — byte number `i` of the SHAKE-256 extendable-output
  stream obtained by absorbing `seed` (the Rust
  `Shake256::default().chain(seed).finalize_xof()` reader, whose sequential
  reads return successive bytes of this stream);
* `hashXofShake msg dst` — `G1Projective::hash::<ExpandMsgXof<Shake256>>`;
* `expandXofShake msg dst len` — `ExpandMsgXof::<Shake256>::expand_message`
  producing `len` bytes;
* `hashXmdSha` / `expandXmdSha` — the corresponding
  `ExpandMsgXmd<Sha256>` capabilities;
* `g2MulGenerator k` — `G2Projective::generator() * k`;
* `g2Compress` / `g1Compress` — compressed affine serialization
  (`p.to_affine().to_compressed()`);
* `g1Identity` — the identity element of the first pairing group. -/
structure Externs (G1 G2 Scalar : Type) where
  shakeByte : Bytes → Nat → Nat
  hashXofShake : Bytes → Bytes → G1
  expandXofShake : Bytes → Bytes → Nat → Bytes
  hashXmdSha : Bytes → Bytes → G1
  expandXmdSha : Bytes → Bytes → Nat → Bytes
  g2MulGenerator : Scalar → G2
  g2Compress : G2 → Bytes
  g1Compress : G1 → Bytes
  g1Identity : G1

/-- The ciphersuite descriptor: the four byte-string constants and the two
capabilities (Expander, GroupHasher) that main.rs consumes from the
`BbsCiphersuite` trait (`X::generator_seed()`, `X::bp_generator_seed()`,
`X::generator_seed_dst()`, `X::generator_dst()`, `X::Expander::expand_message`
and `G1Projective::hash::<X::Expander>`). -/
structure BbsCiphersuite (G1 : Type) where
  generator_seed : Bytes
  bp_generator_seed : Bytes
  generator_seed_dst : Bytes
  generator_dst : Bytes
  expand_message : Bytes → Bytes → Nat → Bytes
  hash : Bytes → Bytes → G1

/-- The `Generators` struct of main.rs. -/
structure Generators (G1 : Type) where
  g1_base_point : G1
  message_generators : List G1
deriving DecidableEq

/-- Modelled from the spec: the ciphersuite identifier of the SHA-256 based
suite (`Bls12381Sha256`).  The file src/tooling/message-generators/src/ciphersuites.rs
is declared by main.rs (`mod ciphersuites`) but is not present under src/;
per the spec the suite uses the expand-message-XMD/SHA-256 hash-to-curve
method, whose standard suite identifier is this byte string. -/
def shaSuiteId : Bytes := strBytes "BBS_BLS12381G1_XMD:SHA-256_SSWU_RO_"

/-- Modelled from the spec: the ciphersuite identifier of the SHAKE-256 based
suite (`Bls12381Shake256`); it coincides with the `DST` constant of main.rs,
which names the expand-message-XOF/SHAKE-256 hash-to-curve suite. -/
def shakeSuiteId : Bytes := strBytes "BBS_BLS12381G1_XOF:SHAKE-256_SSWU_RO_"

/-- Modelled from the spec: the constants of a ciphersuite descriptor,
derived from its identifier (ciphersuites.rs is not under src/; the spec
fixes per suite a generator seed, a base-point generator seed and two
domain-separation tags, all distinct constant byte strings). -/
def suiteOfId (id : Bytes) (expander : Bytes → Bytes → Nat → Bytes)
    (hasher : Bytes → Bytes → G1) : BbsCiphersuite G1 where
  generator_seed := id ++ strBytes "MESSAGE_GENERATOR_SEED"
  bp_generator_seed := id ++ strBytes "BP_MESSAGE_GENERATOR_SEED"
  generator_seed_dst := id ++ strBytes "SIG_GENERATOR_SEED_"
  generator_dst := id ++ strBytes "SIG_GENERATOR_DST_"
  expand_message := expander
  hash := hasher

/-- Modelled from the spec: the `Bls12381Sha256` ciphersuite (ciphersuites.rs
is not under src/): Expander and GroupHasher are the
expand-message-XMD/SHA-256 capabilities. -/
def Bls12381Sha256 (E : Externs G1 G2 Scalar) : BbsCiphersuite G1 :=
  suiteOfId shaSuiteId E.expandXmdSha E.hashXmdSha

/-- Modelled from the spec: the `Bls12381Shake256` ciphersuite
(ciphersuites.rs is not under src/): Expander and GroupHasher are the
expand-message-XOF/SHAKE-256 capabilities. -/
def Bls12381Shake256 (E : Externs G1 G2 Scalar) : BbsCiphersuite G1 :=
  suiteOfId shakeSuiteId E.expandXofShake E.hashXofShake

/-- The Rust `n.to_be_bytes()` for a 64-bit `usize`: eight big-endian bytes. -/
def usize_to_be_bytes (n : Nat) : Bytes :=
  (List.range 8).map fun i => n / 2 ^ (8 * (7 - i)) % 256

/-- `make_g1_base_point::<X>()` of main.rs lines 185-201, translated step by
step: expand `bp_generator_seed` under `generator_seed_dst` into 48 bytes,
append `0usize.to_be_bytes()[4..]`, re-expand the concatenation under
`generator_seed_dst` into 48 bytes, hash the result under `generator_dst`. -/
def make_g1_base_point (S : BbsCiphersuite G1) : G1 :=
  let v := S.expand_message S.bp_generator_seed S.generator_seed_dst 48
  let extra := (usize_to_be_bytes 0).drop 4
  let buffer := v ++ extra
  let v2 := S.expand_message buffer S.generator_seed_dst 48
  S.hash v2 S.generator_dst

/-- One 64-byte read from the SHAKE-256 reader of `seed`, after `i` previous
64-byte reads: the Rust `reader.read(&mut buffer)` with `buffer: [u8; 64]`
returns bytes `64*i .. 64*i+63` of the output stream. -/
def squeezeBlock (shakeByte : Bytes → Nat → Nat) (seed : Bytes) (i : Nat) : Bytes :=
  (List.range 64).map fun j => shakeByte seed (64 * i + j)

/-- The `for _ in 0..len` loop of `make_generators` (main.rs lines 173-177):
the reader state is the number of 64-byte blocks already read; each
iteration reads the next 64 bytes and hashes them with
`G1Projective::hash::<ExpandMsgXof<Shake256>>` under `DST`. -/
def generatorLoop (E : Externs G1 G2 Scalar) (seed : Bytes) : Nat → Nat → List G1
  | _, 0 => []
  | i, n + 1 =>
      E.hashXofShake (squeezeBlock E.shakeByte seed i) DST ::
        generatorLoop E seed (i + 1) n

/-- `make_generators::<X>(seed, len)` of main.rs lines 157-183. -/
def make_generators (E : Externs G1 G2 Scalar) (S : BbsCiphersuite G1)
    (seedOpt : Option Bytes) (len : Nat) : Generators G1 :=
  let seed := seedOpt.getD S.generator_seed
  let base_point := make_g1_base_point S
  { g1_base_point := base_point
    message_generators := generatorLoop E seed 0 len }

/-- `global_generators` of main.rs lines 110-115. -/
def global_generators (f : Option Bytes → Nat → Generators G1) (len : Nat) :
    Generators G1 :=
  f none len

/-- `signer_specific_generators` of main.rs lines 117-124, with the random
secret scalar `sk` as an injected input (the spec requires the secret-key
draw to be an injectable capability). -/
def signer_specific_generators (E : Externs G1 G2 Scalar)
    (f : Option Bytes → Nat → Generators G1) (sk : Scalar) (len : Nat) :
    Generators G1 :=
  f (some (E.g2Compress (E.g2MulGenerator sk))) len

/-- The byte-level output of a derivation: the compressed base point followed
by the compressed message generators, as serialized by `print_generators`
(main.rs lines 126-138). -/
def serializeGenerators (E : Externs G1 G2 Scalar) (g : Generators G1) :
    List Bytes :=
  E.g1Compress g.g1_base_point :: g.message_generators.map E.g1Compress

/-- Modelled from the spec: the `ConfigurationError` raised for an oversized
domain-separation tag (the error-reporting code and ciphersuites.rs are not
under src/). -/
inductive ConfigurationError where
  | oversizedDst
deriving DecidableEq

/-- Modelled from the spec: the Expander capability must reject a
domain-separation tag longer than 255 bytes with a ConfigurationError
(spec section 4.1; the Expander implementation is not under src/). -/
def expand_message_checked (expander : Bytes → Bytes → Nat → Bytes)
    (msg dst : Bytes) (len : Nat) : Except ConfigurationError Bytes :=
  if 255 < dst.length then Except.error ConfigurationError.oversizedDst
  else Except.ok (expander msg dst len)

/-- Modelled from the spec: the GroupHasher capability likewise rejects a
domain-separation tag longer than 255 bytes. -/
def hash_checked (hasher : Bytes → Bytes → G1) (msg dst : Bytes) :
    Except ConfigurationError G1 :=
  if 255 < dst.length then Except.error ConfigurationError.oversizedDst
  else Except.ok (hasher msg dst)

/-- `make_g1_base_point` run against the checked capabilities: the base-point
derivation with the spec-mandated oversized-DST rejection made explicit. -/
def make_g1_base_point_checked (S : BbsCiphersuite G1) :
    Except ConfigurationError G1 :=
  (expand_message_checked S.expand_message S.bp_generator_seed
      S.generator_seed_dst 48).bind fun v =>
    (expand_message_checked S.expand_message
        (v ++ (usize_to_be_bytes 0).drop 4) S.generator_seed_dst 48).bind
      fun v2 => hash_checked S.hash v2 S.generator_dst

/-- A concrete instantiation of the external capabilities with a toy group
(points are pairs of byte strings), used to evaluate the development on
concrete inputs. -/
def toyExterns : Externs (Bytes × Bytes) Bytes Nat where
  shakeByte := fun seed i => (seed.length + i) % 256
  hashXofShake := fun m d => (0 :: m, d)
  expandXofShake := fun m d n => List.replicate n ((m.length + d.length) % 256)
  hashXmdSha := fun m d => (1 :: m, d)
  expandXmdSha := fun m d n => List.replicate n ((m.length + 2 * d.length + 1) % 256)
  g2MulGenerator := fun k => [k % 256]
  g2Compress := fun g => g
  g1Compress := fun p => p.1 ++ p.2
  g1Identity := ([], [])

/-- A suite whose generator-seed DST is 256 bytes long, for exercising the
oversized-DST rejection in the expansion steps. -/
def longDstSuite : BbsCiphersuite (Bytes × Bytes) :=
  { generator_seed := [1]
    bp_generator_seed := [2]
    generator_seed_dst := List.replicate 256 0
    generator_dst := [3]
    expand_message := toyExterns.expandXofShake
    hash := toyExterns.hashXofShake }

/-- A suite whose generator DST (the tag of the final hash step) is 256
bytes long while its generator-seed DST is short, for exercising the
oversized-DST rejection in the hash step. -/
def longGenDstSuite : BbsCiphersuite (Bytes × Bytes) :=
  { generator_seed := [1]
    bp_generator_seed := [2]
    generator_seed_dst := [4]
    generator_dst := List.replicate 256 0
    expand_message := toyExterns.expandXofShake
    hash := toyExterns.hashXofShake }

/- ### Helper lemmas -/

theorem generatorLoop_length (E : Externs G1 G2 Scalar) (seed : Bytes) :
    ∀ i n, (generatorLoop E seed i n).length = n := by
  intro i n
  induction n generalizing i with
  | zero => rfl
  | succ m ih => simp [generatorLoop, ih]

theorem generatorLoop_take (E : Externs G1 G2 Scalar) (seed : Bytes) :
    ∀ k n i, k ≤ n →
      (generatorLoop E seed i n).take k = generatorLoop E seed i k := by
  intro k
  induction k with
  | zero => intro n i _; rfl
  | succ j ih =>
      intro n i hkn
      cases n with
      | zero => omega
      | succ m =>
          simp only [generatorLoop, List.take_succ_cons]
          rw [ih m (i + 1) (Nat.succ_le_succ_iff.mp hkn)]

theorem generatorLoop_eq_map (E : Externs G1 G2 Scalar) (seed : Bytes) :
    ∀ n i, generatorLoop E seed i n
      = (List.range n).map
          (fun t => E.hashXofShake (squeezeBlock E.shakeByte seed (i + t)) DST) := by
  intro n
  induction n with
  | zero => intro i; rfl
  | succ m ih =>
      intro i
      rw [List.range_succ_eq_map]
      simp only [generatorLoop, List.map_cons, Nat.add_zero, List.map_map]
      refine congrArg₂ _ rfl ?_
      rw [ih (i + 1)]
      refine congrArg₂ _ ?_ rfl
      funext t
      simp only [Function.comp_apply]
      have h : i + 1 + t = i + t.succ := by omega
      rw [h]

/- ### Claims -/

/-- Claim C1: prefix stability — for every ciphersuite, fixed seed and
`k ≤ N`, the first `k` message generators of a count-`N` derivation equal
the full output of a count-`k` derivation. -/
theorem prefix_stability (E : Externs G1 G2 Scalar) (S : BbsCiphersuite G1)
    (seedOpt : Option Bytes) (k N : Nat) (h : k ≤ N) :
    (make_generators E S seedOpt N).message_generators.take k
      = (make_generators E S seedOpt k).message_generators := by
  simp only [make_generators]
  exact generatorLoop_take E (seedOpt.getD S.generator_seed) k N 0 h

/-- Witness for C1 at the SHAKE-256 suite, explicit seed `[3]`, k = 1, N = 2. -/
theorem prefix_stability_witness :
    1 ≤ 2 ∧
      (make_generators toyExterns (Bls12381Shake256 toyExterns) (some [3]) 2).message_generators.take 1
        = (make_generators toyExterns (Bls12381Shake256 toyExterns) (some [3]) 1).message_generators :=
  ⟨by decide,
    prefix_stability toyExterns (Bls12381Shake256 toyExterns) (some [3]) 1 2 (by decide)⟩

/-- Claim C2: the base point is independent of the seed and the count — any
two calls to `make_generators`, with any seeds (None or any byte strings)
and any counts, return the same `g1_base_point`, which equals the output of
`make_g1_base_point` for that suite. -/
theorem base_point_mode_independent (E : Externs G1 G2 Scalar)
    (S : BbsCiphersuite G1) (s1 s2 : Option Bytes) (n1 n2 : Nat) :
    (make_generators E S s1 n1).g1_base_point
        = (make_generators E S s2 n2).g1_base_point
      ∧ (make_generators E S s1 n1).g1_base_point = make_g1_base_point S :=
  ⟨rfl, rfl⟩

/-- Claim C3: the base point is computed by exactly these steps: expand
`bp_generator_seed` under `generator_seed_dst` into a 48-byte buffer, append
the fixed zero-valued placeholder `0usize.to_be_bytes()[4..]` (four zero
bytes — an encoding of the integer zero, not a variable-length integer
encoding of an expansion count), re-expand the concatenation under
`generator_seed_dst`, and hash the result under `generator_dst` with the
suite's GroupHasher. -/
theorem base_point_steps (S : BbsCiphersuite G1) :
    (usize_to_be_bytes 0).drop 4 = [0, 0, 0, 0]
      ∧ make_g1_base_point S =
          S.hash
            (S.expand_message
              (S.expand_message S.bp_generator_seed S.generator_seed_dst 48
                ++ [0, 0, 0, 0])
              S.generator_seed_dst 48)
            S.generator_dst := by
  refine ⟨by decide, ?_⟩
  rfl

/-- Claim C4: for every ciphersuite, seed and count, the generator sequence
is obtained by squeezing exactly 64 bytes per index, in order, from the
SHAKE-256 stream of the seed, and hashing each 64-byte block under the
single constant tag `DST` with the expand-message-XOF/SHAKE-256 hasher —
the same stream function and tag whatever the suite, and `DST` differs from
both suites' `generator_dst`. -/
theorem generator_stream (E : Externs G1 G2 Scalar) (S : BbsCiphersuite G1)
    (seedOpt : Option Bytes) (N : Nat) :
    (make_generators E S seedOpt N).message_generators
        = (List.range N).map
            (fun i => E.hashXofShake
              (squeezeBlock E.shakeByte (seedOpt.getD S.generator_seed) i) DST)
      ∧ (∀ seed i, (squeezeBlock E.shakeByte seed i).length = 64)
      ∧ (∀ seed i, squeezeBlock E.shakeByte seed i
          = (List.range 64).map fun j => E.shakeByte seed (64 * i + j))
      ∧ DST = strBytes "BBS_BLS12381G1_XOF:SHAKE-256_SSWU_RO_"
      ∧ DST ≠ (Bls12381Sha256 E).generator_dst
      ∧ DST ≠ (Bls12381Shake256 E).generator_dst := by
  refine ⟨?_, ?_, fun seed i => rfl, rfl,
    (by decide : DST ≠ shaSuiteId ++ strBytes "SIG_GENERATOR_DST_"),
    (by decide : DST ≠ shakeSuiteId ++ strBytes "SIG_GENERATOR_DST_")⟩
  · simp only [make_generators]
    simpa using generatorLoop_eq_map E (seedOpt.getD S.generator_seed) N 0
  · intro seed i
    simp [squeezeBlock]

/-- Claim C5: signer-specific derivation with secret scalar `sk` — multiply
the fixed G2 generator by `sk`, compress the public key, use the compressed
bytes as seed — returns exactly the `make_generators` result with that
compressed public key as explicit seed; mode selection only changes seed
sourcing (global mode likewise is `make_generators` with no seed). -/
theorem signer_seed_equivalence (E : Externs G1 G2 Scalar)
    (S : BbsCiphersuite G1) (sk : Scalar) (len : Nat) :
    signer_specific_generators E (make_generators E S) sk len
        = make_generators E S (some (E.g2Compress (E.g2MulGenerator sk))) len
      ∧ global_generators (make_generators E S) len
        = make_generators E S none len :=
  ⟨rfl, rfl⟩

/-- Claim C6: cross-suite divergence in global mode — under the standing
cryptographic assumptions on the externally supplied primitives (the
SHAKE-256 stream separates the two suites' distinct generator seeds, the
XOF hash-to-curve is injective under the fixed `DST`, and the XMD and XOF
hash-to-curve maps never collide with each other), the SHA-256 suite and
the SHAKE-256 suite yield a different base point and a different
message-generator sequence for any count `n ≥ 1`. -/
theorem cross_suite_divergence (E : Externs G1 G2 Scalar) (n : Nat) (hn : 1 ≤ n)
    (hstream : squeezeBlock E.shakeByte (Bls12381Sha256 E).generator_seed 0
        ≠ squeezeBlock E.shakeByte (Bls12381Shake256 E).generator_seed 0)
    (hinj : Function.Injective fun m => E.hashXofShake m DST)
    (hcross : ∀ m1 d1 m2 d2, E.hashXmdSha m1 d1 ≠ E.hashXofShake m2 d2) :
    (global_generators (make_generators E (Bls12381Sha256 E)) n).g1_base_point
        ≠ (global_generators (make_generators E (Bls12381Shake256 E)) n).g1_base_point
      ∧ (global_generators (make_generators E (Bls12381Sha256 E)) n).message_generators
        ≠ (global_generators (make_generators E (Bls12381Shake256 E)) n).message_generators := by
  refine ⟨?_, ?_⟩
  · exact hcross _ _ _ _
  · obtain ⟨m, rfl⟩ : ∃ m, n = m + 1 := ⟨n - 1, by omega⟩
    intro hEq
    simp only [global_generators, make_generators, Option.getD_none, generatorLoop,
      List.cons.injEq] at hEq
    exact hstream (hinj hEq.1)

/-- Witness for C6 at the toy externals with count 1. -/
theorem cross_suite_divergence_witness :
    (global_generators (make_generators toyExterns (Bls12381Sha256 toyExterns)) 1).g1_base_point
        ≠ (global_generators (make_generators toyExterns (Bls12381Shake256 toyExterns)) 1).g1_base_point
      ∧ (global_generators (make_generators toyExterns (Bls12381Sha256 toyExterns)) 1).message_generators
        ≠ (global_generators (make_generators toyExterns (Bls12381Shake256 toyExterns)) 1).message_generators :=
  cross_suite_divergence toyExterns 1 (by decide) (by decide)
    (fun a b hab => by
      have h2 : (0 : Nat) :: a = 0 :: b := congrArg Prod.fst hab
      simpa using h2)
    (fun m1 d1 m2 d2 hx => by
      have h2 : (((1 : Nat) :: m1, d1) : Bytes × Bytes) = ((0 : Nat) :: m2, d2) := hx
      simp at h2)

/-- Claim C7: a count-0 derivation returns an empty generator sequence
together with the suite's base point, which (since the GroupHasher never
returns the identity) is not the identity element; in general the sequence
has length exactly the requested count. -/
theorem empty_case_and_length (E : Externs G1 G2 Scalar) (S : BbsCiphersuite G1)
    (seedOpt : Option Bytes)
    (hni : ∀ m d, S.hash m d ≠ E.g1Identity) :
    (make_generators E S seedOpt 0).message_generators = []
      ∧ (make_generators E S seedOpt 0).g1_base_point = make_g1_base_point S
      ∧ make_g1_base_point S ≠ E.g1Identity
      ∧ ∀ len, (make_generators E S seedOpt len).message_generators.length = len := by
  refine ⟨rfl, rfl, hni _ _, ?_⟩
  intro len
  simp only [make_generators]
  exact generatorLoop_length E _ 0 len

/-- Witness for C7 at the SHAKE-256 suite over the toy externals. -/
theorem empty_case_and_length_witness :
    (make_generators toyExterns (Bls12381Shake256 toyExterns) none 0).message_generators = []
      ∧ (make_generators toyExterns (Bls12381Shake256 toyExterns) none 0).g1_base_point
        = make_g1_base_point (Bls12381Shake256 toyExterns)
      ∧ make_g1_base_point (Bls12381Shake256 toyExterns) ≠ toyExterns.g1Identity
      ∧ ∀ len, (make_generators toyExterns (Bls12381Shake256 toyExterns) none len).message_generators.length = len :=
  empty_case_and_length toyExterns (Bls12381Shake256 toyExterns) none
    (fun m d h => by
      have h2 : (((0 : Nat) :: m, d) : Bytes × Bytes) = ([], []) := h
      simp at h2)

/-- Claim C8: an oversized domain-separation tag (longer than 255 bytes) is
rejected with a ConfigurationError, and no curve point is produced from it:
with the spec-mandated checked capabilities, the base-point derivation of a
suite either of whose tags — the generator-seed DST used by the two
expansion steps, or the generator DST used by the final hash step — exceeds
255 bytes returns the error and never an `ok` point. -/
theorem oversized_dst_rejected (S : BbsCiphersuite G1)
    (h : 255 < S.generator_seed_dst.length ∨ 255 < S.generator_dst.length) :
    make_g1_base_point_checked S = Except.error ConfigurationError.oversizedDst
      ∧ ∀ p, make_g1_base_point_checked S ≠ Except.ok p := by
  have hmain : make_g1_base_point_checked S
      = Except.error ConfigurationError.oversizedDst := by
    rcases h with h | h
    · simp [make_g1_base_point_checked, expand_message_checked, h, Except.bind]
    · rcases Nat.lt_or_ge 255 S.generator_seed_dst.length with h2 | h2
      · simp [make_g1_base_point_checked, expand_message_checked, h2, Except.bind]
      · have hn : ¬ 255 < S.generator_seed_dst.length := by omega
        simp [make_g1_base_point_checked, expand_message_checked, hash_checked,
          hn, h, Except.bind]
  exact ⟨hmain, fun p hp => by simp [hmain] at hp⟩

set_option maxRecDepth 4096 in
/-- Witness for C8, at a suite whose 256-byte generator-seed DST trips the
expansion step and at a suite whose 256-byte generator DST trips the hash
step. -/
theorem oversized_dst_rejected_witness :
    (255 < longDstSuite.generator_seed_dst.length
        ∧ make_g1_base_point_checked longDstSuite
            = Except.error ConfigurationError.oversizedDst)
      ∧ (255 < longGenDstSuite.generator_dst.length
        ∧ make_g1_base_point_checked longGenDstSuite
            = Except.error ConfigurationError.oversizedDst) :=
  ⟨⟨by decide, (oversized_dst_rejected longDstSuite (Or.inl (by decide))).1⟩,
   ⟨by decide, (oversized_dst_rejected longGenDstSuite (Or.inr (by decide))).1⟩⟩

/-- Claim C9: determinism — two invocations of the derivation with the same
ciphersuite, the same fixed seed and the same count produce the same
GeneratorSet, and in particular the same serialized (compressed) bytes. -/
theorem derivation_deterministic (E : Externs G1 G2 Scalar)
    (S : BbsCiphersuite G1) (s1 s2 : Option Bytes) (n1 n2 : Nat)
    (hs : s1 = s2) (hn : n1 = n2) :
    make_generators E S s1 n1 = make_generators E S s2 n2
      ∧ serializeGenerators E (make_generators E S s1 n1)
        = serializeGenerators E (make_generators E S s2 n2) := by
  subst hs; subst hn; exact ⟨rfl, rfl⟩

/-- Witness for C9 at the SHAKE-256 suite over the toy externals. -/
theorem derivation_deterministic_witness :
    make_generators toyExterns (Bls12381Shake256 toyExterns) (some [7]) 1
        = make_generators toyExterns (Bls12381Shake256 toyExterns) (some [7]) 1
      ∧ serializeGenerators toyExterns
          (make_generators toyExterns (Bls12381Shake256 toyExterns) (some [7]) 1)
        = serializeGenerators toyExterns
          (make_generators toyExterns (Bls12381Shake256 toyExterns) (some [7]) 1) :=
  derivation_deterministic toyExterns (Bls12381Shake256 toyExterns)
    (some [7]) (some [7]) 1 1 rfl rfl

/-- Claim C10: with an explicit seed, the message-generator sequence does
not depend on the ciphersuite at all — any two suites, in particular the
SHA-256 and the SHAKE-256 suite, return identical `message_generators` for
the same explicit seed and count (the suite affects only the base point and
the default global seed). -/
theorem explicit_seed_suite_independent (E : Externs G1 G2 Scalar)
    (s : Bytes) (n : Nat) :
    (∀ S1 S2 : BbsCiphersuite G1,
        (make_generators E S1 (some s) n).message_generators
          = (make_generators E S2 (some s) n).message_generators)
      ∧ (make_generators E (Bls12381Sha256 E) (some s) n).message_generators
        = (make_generators E (Bls12381Shake256 E) (some s) n).message_generators :=
  ⟨fun _ _ => rfl, rfl⟩

end BbsGen
